import Mathlib

/-!
Shallow embedding of the FFFF ROM-image tools (`ffff_element.py`,
`ffff_romimage.py` from gregkh/bootrom-tools).

Byte buffers are `List Nat` (each entry one byte, values < 256 where the
source guarantees it).  Python's unbounded integers are `Nat` where the
source only ever sees non-negative values, and `Int` where the source's
arithmetic can go negative (the collision-span computation
`location + length - 1`).  Fallible operations return `Except String`.
The external collaborators that are not part of the two source files
(`util.py`, `ffff.py`, the `Tftf` class) are modelled from the spec and
marked as such in their doc comments.
-/

namespace BootromTools

/-! ## Constants from `ffff_element.py` -/

/-- ASCII bytes of the FFFF sentinel string "FlashFormatForFW"
(`FFFF_SENTINEL` in `ffff_element.py`). -/
def FFFF_SENTINEL : List Nat :=
  [70, 108, 97, 115, 104, 70, 111, 114, 109, 97, 116, 70, 111, 114, 70, 87]

def FFFF_MAX_HEADER_BLOCK_OFFSET : Nat := 512 * 1024

def FFFF_ELEMENT_STAGE2_FIRMWARE_PACKAGE : Nat := 0x01

def FFFF_ELEMENT_DATA : Nat := 0x05

def FFFF_ELEMENT_END_OF_ELEMENT_TABLE : Nat := 0xfe

def FFFF_HEADER_SIZE_MIN : Nat := 512

def FFFF_HEADER_SIZE_MAX : Nat := 32768

def FFFF_HEADER_SIZE_DEFAULT : Nat := 4096

def FFFF_SENTINEL_LENGTH : Nat := 16

/-- Total size of one packed element record (`FFFF_ELT_LENGTH` = 20). -/
def FFFF_ELT_LENGTH : Nat := 20

/-- `FFFF_HDR_VALID` validity assessment. -/
def FFFF_HDR_VALID : Nat := 0

def FFFF_HDR_ERASED : Nat := 1

def FFFF_HDR_INVALID : Nat := 2

def FFFF_FILE_EXTENSION : String := ".ffff"

/-! ## Byte-buffer primitives

These model the `struct` module operations used by the source.
`<L` is a little-endian unsigned 32-bit word. -/

/-- Little-endian encoding of one 32-bit word, as written by
`struct.pack_into("<L", ...)`.  `n / 2 ^ k % 256` is byte `k` of `n`
(the source's value always fits 32 bits). -/
def le32 (n : Nat) : List Nat :=
  [n % 256, n / 256 % 256, n / 65536 % 256, n / 16777216 % 256]

/-- Little-endian decoding of one 32-bit word at `off`, as read by
`struct.unpack_from("<L", buf, off)`.  Out-of-range bytes read as 0; the
theorems that use this supply the in-bounds hypothesis `off + 4 ≤ len`
that `struct` enforces by raising `struct.error`. -/
def readLe32 (buf : List Nat) (off : Nat) : Nat :=
  buf.getD off 0 + 256 * buf.getD (off + 1) 0 +
    65536 * buf.getD (off + 2) 0 + 16777216 * buf.getD (off + 3) 0

/-- `struct.unpack_from("<16s", buf, off)`: 16 raw bytes at `off`, or
`none` when the read would run past the buffer (Python raises
`struct.error` there). -/
def read16 (buf : List Nat) (off : Nat) : Option (List Nat) :=
  if off + 16 ≤ buf.length then some ((buf.drop off).take 16) else none

/-- Overwrite `bytes.length` bytes of `buf` starting at `off`
(the effect of `struct.pack_into` on a `bytearray`). -/
def writeBytes (buf : List Nat) (off : Nat) (bytes : List Nat) : List Nat :=
  buf.take off ++ bytes ++ buf.drop (off + bytes.length)

/-! ## External collaborators modelled from the spec -/

/-- Modelled from the spec: `util.is_power_of_2` (`util.py` is not under
`src/`).  The spec requires "`erase_block_size` is a power of two".
Executable as a bounded search; `is_power_of_2_iff` below gives the
mathematical characterization. -/
def is_power_of_2 (n : Nat) : Bool :=
  (List.range (n + 1)).any (fun k => n == 2 ^ k)

/-- Modelled from the spec: `util.block_aligned` (`util.py` is not under
`src/`): "`location` is a multiple of `erase_block_size`". -/
def block_aligned (location block_size : Nat) : Bool :=
  location % block_size == 0

/-- Doubling loop for `get_header_block_size`, with fuel (the real loop
terminates because the erase block size is positive; 64 doublings cover
every header size the format allows). -/
def ghbsAux : Nat → Nat → Nat → Nat
  | 0, size, _ => size
  | fuel + 1, size, hsize =>
    if size < hsize then ghbsAux fuel (size * 2) hsize else size

/-- Modelled from the spec: `ffff.get_header_block_size` (`ffff.py` is
not under `src/`): "the smallest power-of-two multiple of
`erase_block_size` that is ≥ `header_size`", computed by doubling from
the erase block size. -/
def get_header_block_size (erase_block_size header_size : Nat) : Nat :=
  ghbsAux 64 erase_block_size header_size

/-! ## `FfffElement` (from `ffff_element.py`) -/

/-- One FFFF element-table record, with the validation state the source
keeps on the object.  The `filename`/`tftf_blob` members only feed the
external TFTF collaborator and are omitted.  `index` is `Int` because
the source also uses the sentinel index `FFFF_HEADER_COLLISION = -1`. -/
structure FfffElement where
  index : Int
  erase_block_size : Nat
  collisions : List Int
  duplicates : List Int
  in_range : Bool
  aligned : Bool
  valid_type : Bool
  element_type : Nat
  element_class : Nat
  element_id : Nat
  element_length : Nat
  element_location : Nat
  element_generation : Nat
deriving Repr, DecidableEq

namespace FfffElement

/-- `FfffElement.__init__`: fresh record; the three validity flags start
`True` exactly when the type is the end-of-table sentinel. -/
def init (index : Int) (erase_block_size element_type element_class
    element_id element_length element_location element_generation : Nat) :
    FfffElement :=
  { index := index
    erase_block_size := erase_block_size
    collisions := []
    duplicates := []
    in_range := element_type == FFFF_ELEMENT_END_OF_ELEMENT_TABLE
    aligned := element_type == FFFF_ELEMENT_END_OF_ELEMENT_TABLE
    valid_type := element_type == FFFF_ELEMENT_END_OF_ELEMENT_TABLE
    element_type := element_type
    element_class := element_class
    element_id := element_id
    element_length := element_length
    element_location := element_location
    element_generation := element_generation }

/-- `FfffElement.unpack`: five little-endian 32-bit words at `offset`;
word 0 is `type` in its low byte (`& 0xff`, i.e. `% 256`) and `class` in
the upper three bytes (`>> 8 & 0xffffff`, i.e. `/ 256 % 2^24`); returns
the end-of-table flag.  The TFTF-blob load performed for non-EOT
records touches only the external `tftf_blob` collaborator and is not
modelled. -/
def unpack (e : FfffElement) (buf : List Nat) (offset : Nat) :
    FfffElement × Bool :=
  let type_class := readLe32 buf offset
  let e1 : FfffElement :=
    { e with
      element_type := type_class % 256
      element_class := type_class / 256 % 16777216
      element_id := readLe32 buf (offset + 4)
      element_length := readLe32 buf (offset + 8)
      element_location := readLe32 buf (offset + 12)
      element_generation := readLe32 buf (offset + 16) }
  if e1.element_type ≠ FFFF_ELEMENT_END_OF_ELEMENT_TABLE then
    (e1, false)
  else
    ({ e1 with in_range := true, aligned := true, valid_type := true }, true)

/-- `FfffElement.pack`: writes `(class << 8) | type` (= `class * 256 +
type`, the low byte being free) and the four remaining words as five
little-endian 32-bit words at `offset`; returns the buffer and the next
offset. -/
def pack (e : FfffElement) (buf : List Nat) (offset : Nat) :
    List Nat × Nat :=
  let type_class := e.element_class * 256 + e.element_type
  (writeBytes buf offset
      (le32 type_class ++ le32 e.element_id ++ le32 e.element_length ++
        le32 e.element_location ++ le32 e.element_generation),
    offset + FFFF_ELT_LENGTH)

/-- `FfffElement.validate`: end-of-table is always valid; otherwise the
range, alignment and type checks are each computed and stored, and the
conjunction is returned. -/
def validate (e : FfffElement) (address_range_low address_range_high : Nat) :
    FfffElement × Bool :=
  if e.element_type = FFFF_ELEMENT_END_OF_ELEMENT_TABLE then
    ({ e with in_range := true, aligned := true, valid_type := true }, true)
  else
    let ir := decide (address_range_low ≤ e.element_location) &&
      decide (e.element_location < address_range_high)
    let al := block_aligned e.element_location e.erase_block_size
    let vt := decide (FFFF_ELEMENT_STAGE2_FIRMWARE_PACKAGE ≤ e.element_type) &&
      decide (e.element_type ≤ FFFF_ELEMENT_DATA)
    ({ e with in_range := ir, aligned := al, valid_type := vt },
      ir && al && vt)

/-- `FfffElement.validate_against`: span arithmetic is over `Int`
because Python's `location + length - 1` goes below `location` for a
zero-length element. -/
def validate_against (e other : FfffElement) : FfffElement :=
  let start_a : Int := e.element_location
  let end_a : Int := start_a + e.element_length - 1
  let start_b : Int := other.element_location
  let end_b : Int := start_b + other.element_length - 1
  let e1 :=
    if end_b ≥ start_a ∧ start_b ≤ end_a then
      { e with collisions := e.collisions ++ [other.index] }
    else e
  if e.element_type = other.element_type ∧
      e.element_id = other.element_id ∧
      e.element_generation = other.element_generation then
    { e1 with duplicates := e1.duplicates ++ [other.index] }
  else e1

/-- `FfffElement.same_as`: equality of the six persisted fields. -/
def same_as (e other : FfffElement) : Bool :=
  e.element_type == other.element_type &&
  e.element_class == other.element_class &&
  e.element_id == other.element_id &&
  e.element_length == other.element_length &&
  e.element_location == other.element_location &&
  e.element_generation == other.element_generation

end FfffElement

/-- The closed byte spans `[location, location + length - 1]` of two
records have a common point (the intersection notion of claims about
`validate_against`). -/
def spansIntersect (a b : FfffElement) : Prop :=
  ∃ x : Int,
    (a.element_location : Int) ≤ x ∧
    x ≤ (a.element_location : Int) + a.element_length - 1 ∧
    (b.element_location : Int) ≤ x ∧
    x ≤ (b.element_location : Int) + b.element_length - 1

/-! ## `Ffff` header objects and `FfffRomimage` (from `ffff_romimage.py`) -/

/-- Modelled from the spec: the `Ffff` header-block class (`ffff.py` is
not under `src/`).  Only the constructor arguments `FfffRomimage`
passes, plus the `header_validity` assessment the spec says the header
surfaces to `RomImage` (`VALID`/`ERASED`/`INVALID`), are modelled; the
element table and pack/unpack internals remain with the collaborator. -/
structure Ffff where
  offset : Nat
  flash_image_name : List Nat
  flash_capacity : Nat
  erase_block_size : Nat
  flash_image_length : Nat
  header_generation_number : Nat
  header_size : Nat
  header_validity : Nat
deriving Repr, DecidableEq

/-- Modelled from the spec: `Ffff(...)` construction as performed by
`FfffRomimage.init` / `init_from_file`.  The validity assessment is
computed by the external header; nothing proved here depends on the
`FFFF_HDR_VALID` default used for it. -/
def mkFfff (offset : Nat) (name : List Nat)
    (capacity erase_block_size image_length generation header_size : Nat) :
    Ffff :=
  { offset := offset
    flash_image_name := name
    flash_capacity := capacity
    erase_block_size := erase_block_size
    flash_image_length := image_length
    header_generation_number := generation
    header_size := header_size
    header_validity := FFFF_HDR_VALID }

/-- `FfffRomimage` state.  `ffff_buf` is `[]` rather than `None` before
a buffer exists (the distinction is never observed by the claims);
`timestamp` is the attribute `get_romimage_characteristics` adds. -/
structure FfffRomimage where
  header_size : Nat
  ffff0 : Option Ffff
  ffff1 : Option Ffff
  ffff_buf : List Nat
  timestamp : List Nat
  flash_image_name : List Nat
  flash_capacity : Nat
  erase_block_size : Nat
  flash_image_length : Nat
  header_generation_number : Nat
  element_location_min : Nat
  element_location_max : Nat
deriving Repr, DecidableEq

namespace FfffRomimage

/-- `FfffRomimage.__init__`. -/
def new : FfffRomimage :=
  { header_size := FFFF_HEADER_SIZE_DEFAULT
    ffff0 := none
    ffff1 := none
    ffff_buf := []
    timestamp := []
    flash_image_name := []
    flash_capacity := 0
    erase_block_size := 0
    flash_image_length := 0
    header_generation_number := 0
    element_location_min := 0
    element_location_max := 0 }

/-- `FfffRomimage.init`: parameter validation happens first, in source
order, so a failure returns before the `bytearray(image_length)` buffer
is allocated and before either header object is constructed (the
`Except.error` result carries no state at all).  On success the buffer
is `image_length` zero bytes and the two headers sit at offsets `0` and
`get_header_block_size(...)`. -/
def init (flash_image_name : List Nat) (flash_capacity erase_block_size
    image_length header_generation_number header_size : Nat) :
    Except String FfffRomimage :=
  if header_size < FFFF_HEADER_SIZE_MIN ∨ FFFF_HEADER_SIZE_MAX < header_size
  then
    .error "header_size is out of range"
  else if is_power_of_2 erase_block_size = false then
    .error "Erase block size must be 2**n"
  else if image_length % erase_block_size ≠ 0 then
    .error "Image length must be a multiple of erase bock size"
  else
    .ok
      { header_size := header_size
        ffff0 := some (mkFfff 0 flash_image_name flash_capacity
          erase_block_size image_length header_generation_number header_size)
        ffff1 := some (mkFfff
          (get_header_block_size erase_block_size header_size)
          flash_image_name flash_capacity erase_block_size image_length
          header_generation_number header_size)
        ffff_buf := List.replicate image_length 0
        timestamp := []
        flash_image_name := flash_image_name
        flash_capacity := flash_capacity
        erase_block_size := erase_block_size
        flash_image_length := image_length
        header_generation_number := header_generation_number
        element_location_min :=
          2 * get_header_block_size erase_block_size header_size
        element_location_max := image_length }

/-- `FfffRomimage.get_romimage_characteristics`: unpacks the fixed
100-byte part of header 0 (`<16s16s48sLLLLL>`), reads the tail sentinel
at `header_size - 16`, verifies both sentinels (the source's chained
comparison `sentinel != tail_sentinel != FFFF_SENTINEL`), checks the
erase-block size and image length, and records the element address
window — whose upper bound is `flash_capacity`, not the image length. -/
def get_romimage_characteristics (r : FfffRomimage) (buf : List Nat) :
    Except String FfffRomimage :=
  if buf.length < 100 then .error "struct.error"
  else
    let sentinel := buf.take 16
    let timestamp := (buf.drop 16).take 16
    let name := (buf.drop 32).take 48
    let capacity := readLe32 buf 80
    let erase_block_size := readLe32 buf 84
    let header_size := readLe32 buf 88
    let image_length := readLe32 buf 92
    let generation := readLe32 buf 96
    match read16 buf (header_size - FFFF_SENTINEL_LENGTH) with
    | none => .error "struct.error"
    | some tail_sentinel =>
      if sentinel ≠ FFFF_SENTINEL then .error "invalid sentinel"
      else if sentinel ≠ tail_sentinel ∧ tail_sentinel ≠ FFFF_SENTINEL then
        .error "invalid tail sentinel"
      else if is_power_of_2 erase_block_size = false then
        .error "Erase block size must be 2**n"
      else if image_length % erase_block_size ≠ 0 then
        .error "Image length must be a multiple of erase bock size"
      else
        .ok
          { r with
            timestamp := timestamp
            flash_image_name := name
            flash_capacity := capacity
            erase_block_size := erase_block_size
            header_size := header_size
            flash_image_length := image_length
            header_generation_number := generation
            element_location_min :=
              2 * get_header_block_size erase_block_size header_size
            element_location_max := capacity }

/-- One candidate test of the second-header scan: both the 16 nose
bytes at `off` and the 16 tail bytes at `off + (header_size - 16)` read
in-bounds and equal the sentinel. -/
def acceptsCandidate (buf : List Nat) (header_size off : Nat) : Bool :=
  read16 buf off == some FFFF_SENTINEL &&
  read16 buf (off + (header_size - FFFF_SENTINEL_LENGTH)) ==
    some FFFF_SENTINEL

/-- The `while offset < FFFF_MAX_HEADER_BLOCK_OFFSET` scan of
`init_from_file`, with fuel (the real loop terminates because the start
offset is positive and doubles; 64 steps cover every positive start).
An out-of-bounds sentinel read is the `struct.error` Python raises. -/
def scanAux (buf : List Nat) (header_size : Nat) :
    Nat → Nat → Except String (Option Nat)
  | 0, _ => .ok none
  | fuel + 1, offset =>
    if offset < FFFF_MAX_HEADER_BLOCK_OFFSET then
      match read16 buf offset,
          read16 buf (offset + (header_size - FFFF_SENTINEL_LENGTH)) with
      | some nose_sentinel, some tail_sentinel =>
        if nose_sentinel = FFFF_SENTINEL ∧ tail_sentinel = FFFF_SENTINEL then
          .ok (some offset)
        else scanAux buf header_size fuel (offset * 2)
      | _, _ => .error "struct.error"
    else .ok none

/-- Second-header location scan of `init_from_file` (lines 173–198):
returns the first accepted offset, `none` when the ceiling is reached,
or the propagated `struct.error`. -/
def scanForHeader1 (buf : List Nat) (header_size start : Nat) :
    Except String (Option Nat) :=
  scanAux buf header_size 64 start

/-- The doubling chain of candidate offsets the scan visits:
`start, start*2, start*4, ...` while below the 512 KiB ceiling. -/
def candAux : Nat → Nat → List Nat
  | 0, _ => []
  | fuel + 1, offset =>
    if offset < FFFF_MAX_HEADER_BLOCK_OFFSET then
      offset :: candAux fuel (offset * 2)
    else []

def candidateOffsets (start : Nat) : List Nat :=
  candAux 64 start

/-- `FfffRomimage.init_from_file` after the file bytes have been read
into the buffer (the file-resolution and read themselves are plain I/O
out of scope): extract the characteristics from header 0, build the
first header object, scan for the second header, and assemble the
state.  A failed scan read propagates; an exhausted scan leaves
`ffff1 = none` and still succeeds. -/
def initFromBuffer (buf : List Nat) : Except String FfffRomimage :=
  match new.get_romimage_characteristics buf with
  | .error msg => .error msg
  | .ok r =>
    let f0 := mkFfff 0 r.flash_image_name r.flash_capacity
      r.erase_block_size r.flash_image_length r.header_generation_number 0
    match scanForHeader1 buf r.header_size
        (get_header_block_size r.erase_block_size r.header_size) with
    | .error msg => .error msg
    | .ok found =>
      let f1 := found.map (fun off =>
        mkFfff off r.flash_image_name r.flash_capacity r.erase_block_size
          r.flash_image_length r.header_generation_number 0)
      .ok { r with ffff_buf := buf, ffff0 := some f0, ffff1 := f1 }

/-- `FfffRomimage.write`: the validity gate (header 0 first, then
header 1, matching the source's evaluation order — a missing header is
Python's `AttributeError`), then the extension default, then the whole
buffer is emitted.  The `FfffRomimage` component of the result is the
unchanged receiver: the source method reads but never assigns `self`
state. -/
def write (r : FfffRomimage) (out_filename : String) :
    FfffRomimage × Except String (String × List Nat) :=
  match r.ffff0 with
  | none => (r, .error "AttributeError")
  | some h0 =>
    if h0.header_validity ≠ FFFF_HDR_VALID then
      (r, .error "Invalid FFFF header 0")
    else
      match r.ffff1 with
      | none => (r, .error "AttributeError")
      | some h1 =>
        if h1.header_validity ≠ FFFF_HDR_VALID then
          (r, .error "Invalid FFFF header 1")
        else
          let name :=
            if out_filename.contains (Char.ofNat 46) then out_filename
            else out_filename ++ FFFF_FILE_EXTENSION
          (r, .ok (name, r.ffff_buf))

end FfffRomimage

/-! ## Concrete instances used by witnesses and counterexamples -/

/-- A data element: type 2, class 0x123456, id 7, length 100, location
1024, generation 9, erase block 512. -/
def c3E : FfffElement := FfffElement.init 3 512 2 0x123456 7 100 1024 9

/-- A blank receiver for `unpack`. -/
def c3E0 : FfffElement := FfffElement.init 0 512 0 0 0 0 0 0

def c3Buf : List Nat := List.replicate 40 0

/-- A stage-3 firmware element at an aligned, in-window location. -/
def c4E : FfffElement := FfffElement.init 3 512 2 0 7 100 1024 9

/-- An end-of-table element with `location = 0xFFFFFFFF`. -/
def c5E : FfffElement := FfffElement.init 0 512 0xfe 0 0 0 0xffffffff 0

/-- Span `[10, 20)`: location 10, length 10. -/
def c6WA : FfffElement := FfffElement.init 0 1 1 0 1 10 10 1

/-- Span `[15, 25)`: location 15, length 10. -/
def c6WB : FfffElement := FfffElement.init 1 1 1 1 1 10 15 2

/-- Zero-length element at location 10: its closed span is empty. -/
def c6A : FfffElement := FfffElement.init 0 1 1 0 1 0 10 0

/-- Span `[5, 15)` around `c6A`'s location. -/
def c6B : FfffElement := FfffElement.init 1 1 1 1 1 10 5 0

/-- Zero-length element at location 7. -/
def c10A : FfffElement := FfffElement.init 0 1 1 0 1 0 7 0

/-- Another zero-length element at the same location 7. -/
def c10B : FfffElement := FfffElement.init 1 1 2 0 2 0 7 0

def c1H : Ffff := mkFfff 0 [] 0 0 0 0 4096

def c1R : FfffRomimage :=
  { FfffRomimage.new with
    ffff0 := some c1H, ffff1 := some c1H, ffff_buf := [1, 2, 3] }

def c8R : FfffRomimage :=
  (FfffRomimage.init [] 2048 512 1024 0 512).toOption.getD FfffRomimage.new

def c2InitR : FfffRomimage :=
  (FfffRomimage.init [] 4096 1024 8192 1 512).toOption.getD FfffRomimage.new

/-- A 1024-byte image: header 0 at offset 0 (`header_size` 512,
`erase_block_size` 512, `image_length` 1024, `flash_capacity` 2048) and
a second sentinel-framed header at offset 512. -/
def c2Buf : List Nat :=
  FFFF_SENTINEL ++ List.replicate 64 0 ++
    le32 2048 ++ le32 512 ++ le32 512 ++ le32 1024 ++ le32 0 ++
    List.replicate 396 0 ++ FFFF_SENTINEL ++
    FFFF_SENTINEL ++ List.replicate 480 0 ++ FFFF_SENTINEL

def c2R : FfffRomimage :=
  (FfffRomimage.initFromBuffer c2Buf).toOption.getD FfffRomimage.new

/-- A 1 KiB all-zero image: no candidate offset carries the sentinel,
and the scan's read at offset 1024 overruns the buffer. -/
def c9ShortBuf : List Nat := List.replicate 1024 0

/-! ## Supporting lemmas -/

theorem nat_beq_eq_decide (a b : Nat) : (a == b) = decide (a = b) := by
  by_cases h : a = b <;> simp [h]

/-- What `validate_against` does to the collision list, as one closed
form. -/
theorem collisions_validate_against (a b : FfffElement) :
    (a.validate_against b).collisions =
      if (a.element_location : Int) ≤
            (b.element_location : Int) + b.element_length - 1 ∧
          (b.element_location : Int) ≤
            (a.element_location : Int) + a.element_length - 1
      then a.collisions ++ [b.index] else a.collisions := by
  unfold FfffElement.validate_against
  by_cases hcol : (a.element_location : Int) ≤
        (b.element_location : Int) + b.element_length - 1 ∧
      (b.element_location : Int) ≤
        (a.element_location : Int) + a.element_length - 1 <;>
    by_cases hdup : a.element_type = b.element_type ∧
        a.element_id = b.element_id ∧
        a.element_generation = b.element_generation <;>
    simp [hcol, hdup, ge_iff_le]

/-- What `validate_against` does to the duplicate list, as one closed
form. -/
theorem duplicates_validate_against (a b : FfffElement) :
    (a.validate_against b).duplicates =
      if a.element_type = b.element_type ∧ a.element_id = b.element_id ∧
          a.element_generation = b.element_generation
      then a.duplicates ++ [b.index] else a.duplicates := by
  unfold FfffElement.validate_against
  by_cases hcol : (a.element_location : Int) ≤
        (b.element_location : Int) + b.element_length - 1 ∧
      (b.element_location : Int) ≤
        (a.element_location : Int) + a.element_length - 1 <;>
    by_cases hdup : a.element_type = b.element_type ∧
        a.element_id = b.element_id ∧
        a.element_generation = b.element_generation <;>
    simp [hcol, hdup, ge_iff_le]

/-! ## Claims C4, C5, C6, C7, C10 -/

/-- C4: for every element whose type is not `END_OF_TABLE` (0xfe),
`validate(range_low, range_high)` returns the conjunction of exactly
three independently computed and independently stored checks —
`in_range` (`range_low ≤ location < range_high`), `aligned` (`location`
is a multiple of `erase_block_size`), `valid_type` (`1 ≤ type ≤ 5`) —
and every type in `6..0xfd` makes `valid_type` false. -/
theorem ffff_c4_validate_non_eot (e : FfffElement) (lo hi : Nat)
    (h : e.element_type ≠ FFFF_ELEMENT_END_OF_ELEMENT_TABLE) :
    (e.validate lo hi).2 =
      ((e.validate lo hi).1.in_range && (e.validate lo hi).1.aligned &&
        (e.validate lo hi).1.valid_type) ∧
    (e.validate lo hi).1.in_range =
      (decide (lo ≤ e.element_location) &&
        decide (e.element_location < hi)) ∧
    (e.validate lo hi).1.aligned =
      decide (e.element_location % e.erase_block_size = 0) ∧
    (e.validate lo hi).1.valid_type =
      (decide (1 ≤ e.element_type) && decide (e.element_type ≤ 5)) ∧
    (6 ≤ e.element_type → e.element_type ≤ 0xfd →
      (e.validate lo hi).1.valid_type = false) := by
  unfold FfffElement.validate
  rw [if_neg h]
  refine ⟨rfl, rfl, ?_, rfl, ?_⟩
  · simp only [block_aligned, nat_beq_eq_decide]
  · intro h6 _
    have hd : decide (e.element_type ≤ FFFF_ELEMENT_DATA) = false := by
      simp only [decide_eq_false_iff_not, FFFF_ELEMENT_DATA]
      omega
    simp [hd]

theorem ffff_c4_witness :
    (c4E.validate 1024 2048).2 =
      ((c4E.validate 1024 2048).1.in_range &&
        (c4E.validate 1024 2048).1.aligned &&
        (c4E.validate 1024 2048).1.valid_type) :=
  (ffff_c4_validate_non_eot c4E 1024 2048 (by decide)).1

/-- C5: for every element whose type is `END_OF_TABLE` (0xfe),
`validate` returns true and stores `in_range = aligned = valid_type =
true`, whatever the other fields and the range arguments are. -/
theorem ffff_c5_validate_eot (e : FfffElement) (lo hi : Nat)
    (h : e.element_type = FFFF_ELEMENT_END_OF_ELEMENT_TABLE) :
    (e.validate lo hi).2 = true ∧
    (e.validate lo hi).1.in_range = true ∧
    (e.validate lo hi).1.aligned = true ∧
    (e.validate lo hi).1.valid_type = true := by
  unfold FfffElement.validate
  rw [if_pos h]
  exact ⟨rfl, rfl, rfl, rfl⟩

theorem ffff_c5_witness : (c5E.validate 0 0).2 = true :=
  (ffff_c5_validate_eot c5E 0 0 (by decide)).1

/-- C6 (amended): for elements whose lengths are both at least 1,
`validate_against` appends `other.index` to the collision list exactly
when the closed byte spans `[location, location + length - 1]`
intersect; for a zero-length element the source's span test can record
a collision although its closed span is empty (see the
counterexample). -/
theorem ffff_c6_collision_amended (a b : FfffElement)
    (ha : 1 ≤ a.element_length) (hb : 1 ≤ b.element_length) :
    ((a.validate_against b).collisions = a.collisions ++ [b.index] ↔
      spansIntersect a b) ∧
    (¬ spansIntersect a b →
      (a.validate_against b).collisions = a.collisions) := by
  rw [collisions_validate_against]
  by_cases hcol : (a.element_location : Int) ≤
        (b.element_location : Int) + b.element_length - 1 ∧
      (b.element_location : Int) ≤
        (a.element_location : Int) + a.element_length - 1
  · have hint : spansIntersect a b := by
      refine ⟨max (a.element_location : Int) (b.element_location : Int),
        ?_, ?_, ?_, ?_⟩ <;> omega
    rw [if_pos hcol]
    exact ⟨⟨fun _ => hint, fun _ => rfl⟩, fun hn => absurd hint hn⟩
  · rw [if_neg hcol]
    constructor
    · constructor
      · intro habs
        exact absurd (congrArg List.length habs) (by simp)
      · rintro ⟨x, h1, h2, h3, h4⟩
        exact absurd ⟨by omega, by omega⟩ hcol
    · intro _; rfl

theorem ffff_c6_witness :
    (c6WA.validate_against c6WB).collisions =
      c6WA.collisions ++ [c6WB.index] :=
  (ffff_c6_collision_amended c6WA c6WB (by decide) (by decide)).1.mpr
    ⟨15, by decide, by decide, by decide, by decide⟩

/-- C6 counterexample: `c6A` has length 0 at location 10 (empty closed
span) and `c6B` spans `[5, 14]`; the source records a collision even
though the closed spans cannot intersect. -/
theorem ffff_c6_counterexample :
    (c6A.validate_against c6B).collisions = [1] ∧
    ¬ spansIntersect c6A c6B := by
  constructor
  · decide
  · rintro ⟨x, h1, h2, h3, h4⟩
    simp only [c6A, c6B, FfffElement.init] at h1 h2 h3 h4
    omega

/-- C7: `validate_against` appends `other.index` to the duplicate list
exactly when `type`, `id` and `generation` are all equal — the outcome
does not depend on locations, lengths, or span overlap (none of them
occur in the right-hand side). -/
theorem ffff_c7_duplicates (a b : FfffElement) :
    (a.validate_against b).duplicates =
      if a.element_type = b.element_type ∧ a.element_id = b.element_id ∧
          a.element_generation = b.element_generation
      then a.duplicates ++ [b.index] else a.duplicates :=
  duplicates_validate_against a b

/-- C10: two zero-length elements never record a collision, whatever
their locations are — each closed span's end precedes its start. -/
theorem ffff_c10_zero_length_no_collision (a b : FfffElement)
    (ha : a.element_length = 0) (hb : b.element_length = 0) :
    (a.validate_against b).collisions = a.collisions := by
  rw [collisions_validate_against, if_neg]
  rintro ⟨h1, h2⟩
  omega

theorem ffff_c10_witness :
    (c10A.validate_against c10B).collisions = c10A.collisions :=
  ffff_c10_zero_length_no_collision c10A c10B (by decide) (by decide)

/-! ## Little-endian word lemmas for the pack/unpack round trip -/

theorem getD_append_left_of_length {l1 l2 : List Nat} {k : Nat} (h : k < l1.length) :
    (l1 ++ l2).getD k 0 = l1.getD k 0 :=
  List.getD_append l1 l2 0 k h

theorem getD_append_shift (l1 l2 : List Nat) (k : Nat) :
    (l1 ++ l2).getD (l1.length + k) 0 = l2.getD k 0 := by
  rw [List.getD_append_right l1 l2 0 (l1.length + k) (Nat.le_add_right _ _),
    Nat.add_sub_cancel_left]

/-- Reading a word beyond a prefix skips the prefix. -/
theorem readLe32_append (l1 l2 : List Nat) (k : Nat) :
    readLe32 (l1 ++ l2) (l1.length + k) = readLe32 l2 k := by
  unfold readLe32
  rw [show l1.length + k + 1 = l1.length + (k + 1) by omega,
    show l1.length + k + 2 = l1.length + (k + 2) by omega,
    show l1.length + k + 3 = l1.length + (k + 3) by omega,
    getD_append_shift, getD_append_shift, getD_append_shift,
    getD_append_shift]

theorem length_le32 (w : Nat) : (le32 w).length = 4 := by
  simp [le32]

/-- Decoding the encoding of a 32-bit word recovers it. -/
theorem readLe32_le32_append (w : Nat) (rest : List Nat) (hw : w < 4294967296) :
    readLe32 (le32 w ++ rest) 0 = w := by
  simp only [le32, readLe32, List.cons_append, List.nil_append,
    List.getD_cons_zero, List.getD_cons_succ]
  omega

/-- Skipping one encoded word moves the read head by 4. -/
theorem readLe32_le32_skip (w : Nat) (rest : List Nat) (k : Nat) :
    readLe32 (le32 w ++ rest) (4 + k) = readLe32 rest k := by
  rw [show (4 : Nat) + k = (le32 w).length + k by rw [length_le32],
    readLe32_append]

/-- The six element fields `unpack` stores, independent of the
end-of-table branch (both branches carry the same field values). -/
theorem unpack_fields (e0 : FfffElement) (buf : List Nat) (off : Nat) :
    ((e0.unpack buf off).1).element_type = readLe32 buf off % 256 ∧
    ((e0.unpack buf off).1).element_class =
      readLe32 buf off / 256 % 16777216 ∧
    ((e0.unpack buf off).1).element_id = readLe32 buf (off + 4) ∧
    ((e0.unpack buf off).1).element_length = readLe32 buf (off + 8) ∧
    ((e0.unpack buf off).1).element_location = readLe32 buf (off + 12) ∧
    ((e0.unpack buf off).1).element_generation = readLe32 buf (off + 16) := by
  unfold FfffElement.unpack
  dsimp only
  split <;> exact ⟨rfl, rfl, rfl, rfl, rfl, rfl⟩

/-- The five words of a packed record read back from the packed
buffer. -/
theorem read_packed (pre : List Nat) (w0 w1 w2 w3 w4 : Nat)
    (rest : List Nat) (h0 : w0 < 4294967296) (h1 : w1 < 4294967296)
    (h2 : w2 < 4294967296) (h3 : w3 < 4294967296) (h4 : w4 < 4294967296) :
    readLe32 (pre ++ (le32 w0 ++ (le32 w1 ++ (le32 w2 ++
        (le32 w3 ++ (le32 w4 ++ rest)))))) pre.length = w0 ∧
    readLe32 (pre ++ (le32 w0 ++ (le32 w1 ++ (le32 w2 ++
        (le32 w3 ++ (le32 w4 ++ rest)))))) (pre.length + 4) = w1 ∧
    readLe32 (pre ++ (le32 w0 ++ (le32 w1 ++ (le32 w2 ++
        (le32 w3 ++ (le32 w4 ++ rest)))))) (pre.length + 8) = w2 ∧
    readLe32 (pre ++ (le32 w0 ++ (le32 w1 ++ (le32 w2 ++
        (le32 w3 ++ (le32 w4 ++ rest)))))) (pre.length + 12) = w3 ∧
    readLe32 (pre ++ (le32 w0 ++ (le32 w1 ++ (le32 w2 ++
        (le32 w3 ++ (le32 w4 ++ rest)))))) (pre.length + 16) = w4 := by
  refine ⟨?_, ?_, ?_, ?_, ?_⟩
  · have hs := readLe32_append pre (le32 w0 ++ (le32 w1 ++ (le32 w2 ++
      (le32 w3 ++ (le32 w4 ++ rest))))) 0
    rw [Nat.add_zero] at hs
    rw [hs, readLe32_le32_append _ _ h0]
  · rw [readLe32_append, show (4 : Nat) = 4 + 0 by rfl,
      readLe32_le32_skip, readLe32_le32_append _ _ h1]
  · rw [readLe32_append, show (8 : Nat) = 4 + (4 + 0) by rfl,
      readLe32_le32_skip, readLe32_le32_skip,
      readLe32_le32_append _ _ h2]
  · rw [readLe32_append, show (12 : Nat) = 4 + (4 + (4 + 0)) by rfl,
      readLe32_le32_skip, readLe32_le32_skip, readLe32_le32_skip,
      readLe32_le32_append _ _ h3]
  · rw [readLe32_append, show (16 : Nat) = 4 + (4 + (4 + (4 + 0))) by rfl,
      readLe32_le32_skip, readLe32_le32_skip, readLe32_le32_skip,
      readLe32_le32_skip, readLe32_le32_append _ _ h4]

/-! ## Claim C3 -/

/-- C3: packing an element whose fields fit their widths (`type ≤ 0xff`,
`class < 2^24`, the four words `< 2^32`) at an in-bounds offset and
unpacking any receiver from the same buffer and offset recovers all six
fields: word 0 carries `type` in its low byte and `class` above it, and
words 1–4 are `id`, `length`, `location`, `generation`. -/
theorem ffff_c3_pack_unpack_roundtrip (e e0 : FfffElement) (buf : List Nat)
    (offset : Nat) (htype : e.element_type ≤ 0xff)
    (hclass : e.element_class < 16777216)
    (hid : e.element_id < 4294967296) (hlen : e.element_length < 4294967296)
    (hloc : e.element_location < 4294967296)
    (hgen : e.element_generation < 4294967296)
    (hbound : offset + 20 ≤ buf.length) :
    ((e0.unpack (e.pack buf offset).1 offset).1).element_type =
        e.element_type ∧
    ((e0.unpack (e.pack buf offset).1 offset).1).element_class =
        e.element_class ∧
    ((e0.unpack (e.pack buf offset).1 offset).1).element_id =
        e.element_id ∧
    ((e0.unpack (e.pack buf offset).1 offset).1).element_length =
        e.element_length ∧
    ((e0.unpack (e.pack buf offset).1 offset).1).element_location =
        e.element_location ∧
    ((e0.unpack (e.pack buf offset).1 offset).1).element_generation =
        e.element_generation := by
  have htc : e.element_class * 256 + e.element_type < 4294967296 := by
    omega
  have hpack : (e.pack buf offset).1 =
      buf.take offset ++
        (le32 (e.element_class * 256 + e.element_type) ++
          (le32 e.element_id ++ (le32 e.element_length ++
            (le32 e.element_location ++ (le32 e.element_generation ++
              buf.drop (offset + 20)))))) := by
    unfold FfffElement.pack writeBytes
    simp only [List.append_assoc, List.length_append, length_le32,
      FFFF_ELT_LENGTH]
  have hofflen : (buf.take offset).length = offset := by
    rw [List.length_take]
    omega
  obtain ⟨r0, r1, r2, r3, r4⟩ := read_packed (buf.take offset)
    (e.element_class * 256 + e.element_type) e.element_id e.element_length
    e.element_location e.element_generation (buf.drop (offset + 20))
    htc hid hlen hloc hgen
  rw [hofflen] at r0 r1 r2 r3 r4
  obtain ⟨u0, u1, u2, u3, u4, u5⟩ :=
    unpack_fields e0 (e.pack buf offset).1 offset
  rw [u0, u1, u2, u3, u4, u5, hpack, r0, r1, r2, r3, r4]
  refine ⟨by omega, by omega, rfl, rfl, rfl, rfl⟩

theorem ffff_c3_witness :
    ((c3E0.unpack (c3E.pack c3Buf 8).1 8).1).element_type =
        c3E.element_type ∧
    ((c3E0.unpack (c3E.pack c3Buf 8).1 8).1).element_class =
        c3E.element_class ∧
    ((c3E0.unpack (c3E.pack c3Buf 8).1 8).1).element_id =
        c3E.element_id ∧
    ((c3E0.unpack (c3E.pack c3Buf 8).1 8).1).element_length =
        c3E.element_length ∧
    ((c3E0.unpack (c3E.pack c3Buf 8).1 8).1).element_location =
        c3E.element_location ∧
    ((c3E0.unpack (c3E.pack c3Buf 8).1 8).1).element_generation =
        c3E.element_generation :=
  ffff_c3_pack_unpack_roundtrip c3E c3E0 c3Buf 8 (by decide) (by decide)
    (by decide) (by decide) (by decide) (by decide) (by decide)

/-! ## Claim C1 -/

/-- C1: `write` succeeds exactly when both headers are present and each
independently reports `FFFF_HDR_VALID`; on success the emitted bytes
are the entire in-memory buffer; and in every case the `FfffRomimage`
state (buffer and headers included) is returned unchanged. -/
theorem ffff_c1_write_gate (r : FfffRomimage) (f : String) :
    ((r.write f).2.isOk = true ↔
      ∃ h0 h1, r.ffff0 = some h0 ∧ r.ffff1 = some h1 ∧
        h0.header_validity = FFFF_HDR_VALID ∧
        h1.header_validity = FFFF_HDR_VALID) ∧
    (∀ name bytes, (r.write f).2 = .ok (name, bytes) →
      bytes = r.ffff_buf) ∧
    (r.write f).1 = r := by
  unfold FfffRomimage.write
  cases h0 : r.ffff0 with
  | none => simp [Except.isOk, Except.toBool]
  | some v0 =>
    by_cases hv0 : v0.header_validity ≠ FFFF_HDR_VALID
    · simp [hv0, Except.isOk, Except.toBool]
    · cases h1 : r.ffff1 with
      | none => simp [hv0, Except.isOk, Except.toBool]
      | some v1 =>
        by_cases hv1 : v1.header_validity ≠ FFFF_HDR_VALID
        · simp [hv0, hv1, Except.isOk, Except.toBool]
        · have hv0e : v0.header_validity = FFFF_HDR_VALID := not_not.mp hv0
          have hv1e : v1.header_validity = FFFF_HDR_VALID := not_not.mp hv1
          dsimp only
          rw [if_neg hv0, if_neg hv1]
          refine ⟨⟨fun _ => ⟨v0, v1, rfl, rfl, hv0e, hv1e⟩, fun _ => rfl⟩,
            ?_, rfl⟩
          intro name bytes h
          simp only [Except.ok.injEq, Prod.mk.injEq] at h
          exact h.2.symm

theorem ffff_c1_witness : ((c1R.write "out").2).isOk = true :=
  (ffff_c1_write_gate c1R "out").1.mpr ⟨c1H, c1H, rfl, rfl, rfl, rfl⟩

/-! ## Claim C8 -/

/-- `is_power_of_2` agrees with the mathematical notion. -/
theorem is_power_of_2_iff (n : Nat) :
    is_power_of_2 n = true ↔ ∃ k, n = 2 ^ k := by
  unfold is_power_of_2
  rw [List.any_eq_true]
  constructor
  · rintro ⟨k, -, hk⟩
    exact ⟨k, by simpa using hk⟩
  · rintro ⟨k, rfl⟩
    refine ⟨k, List.mem_range.mpr ?_, by simp⟩
    have := Nat.lt_two_pow k
    omega

/-- C8: `init` fails exactly when the header size leaves `[512, 32768]`,
the erase block size is not a power of two, or the image length is not a
multiple of the erase block size; a failure carries no state at all (the
checks run before the buffer allocation and header construction in the
source), and success yields a zero-filled buffer of exactly
`image_length` bytes with headers at offsets `0` and
`get_header_block_size(...)`. -/
theorem ffff_c8_init_spec (name : List Nat)
    (capacity ebs imglen gen hsize : Nat) :
    ((∃ msg, FfffRomimage.init name capacity ebs imglen gen hsize =
        .error msg) ↔
      (hsize < FFFF_HEADER_SIZE_MIN ∨ FFFF_HEADER_SIZE_MAX < hsize ∨
        (¬ ∃ k, ebs = 2 ^ k) ∨ imglen % ebs ≠ 0)) ∧
    (∀ r, FfffRomimage.init name capacity ebs imglen gen hsize = .ok r →
      r.ffff_buf = List.replicate imglen 0 ∧
      r.ffff0 = some (mkFfff 0 name capacity ebs imglen gen hsize) ∧
      r.ffff1 = some (mkFfff (get_header_block_size ebs hsize) name
        capacity ebs imglen gen hsize)) := by
  unfold FfffRomimage.init
  by_cases hrange : hsize < FFFF_HEADER_SIZE_MIN ∨
      FFFF_HEADER_SIZE_MAX < hsize
  · rw [if_pos hrange]
    refine ⟨⟨fun _ => ?_, fun _ => ⟨_, rfl⟩⟩, fun r hr => absurd hr (by simp)⟩
    tauto
  · rw [if_neg hrange]
    by_cases hpow : is_power_of_2 ebs = false
    · rw [if_pos hpow]
      have hnp : ¬ ∃ k, ebs = 2 ^ k := by
        rw [← is_power_of_2_iff]
        simp [hpow]
      refine ⟨⟨fun _ => ?_, fun _ => ⟨_, rfl⟩⟩,
        fun r hr => absurd hr (by simp)⟩
      tauto
    · rw [if_neg hpow]
      have hptrue : is_power_of_2 ebs = true := by
        cases h : is_power_of_2 ebs
        · exact absurd h hpow
        · rfl
      have hpows : ∃ k, ebs = 2 ^ k := (is_power_of_2_iff ebs).mp hptrue
      by_cases hmod : imglen % ebs ≠ 0
      · rw [if_pos hmod]
        refine ⟨⟨fun _ => ?_, fun _ => ⟨_, rfl⟩⟩,
          fun r hr => absurd hr (by simp)⟩
        tauto
      · rw [if_neg hmod]
        constructor
        · constructor
          · rintro ⟨msg, hmsg⟩
            exact absurd hmsg (by simp)
          · rintro (h | h | h | h)
            · exact absurd (Or.inl h) hrange
            · exact absurd (Or.inr h) hrange
            · exact absurd hpows h
            · exact absurd h hmod
        · intro r hr
          injection hr with hr
          subst hr
          exact ⟨rfl, rfl, rfl⟩

set_option maxRecDepth 100000 in
theorem ffff_c8_witness :
    c8R.ffff_buf = List.replicate 1024 0 ∧
    c8R.ffff0 = some (mkFfff 0 [] 2048 512 1024 0 512) ∧
    c8R.ffff1 = some (mkFfff (get_header_block_size 512 512) [] 2048 512
      1024 0 512) :=
  (ffff_c8_init_spec [] 2048 512 1024 0 512).2 c8R rfl

/-! ## Claim C2 -/

/-- The element window `get_romimage_characteristics` records on
success: the lower bound comes from the header-block size, the upper
bound from `flash_capacity`. -/
theorem characteristics_window (r0 r1 : FfffRomimage) (buf : List Nat)
    (h : r0.get_romimage_characteristics buf = .ok r1) :
    r1.element_location_min =
      2 * get_header_block_size r1.erase_block_size r1.header_size ∧
    r1.element_location_max = r1.flash_capacity := by
  unfold FfffRomimage.get_romimage_characteristics at h
  split at h
  · simp at h
  · dsimp only at h
    split at h
    · simp at h
    · split at h
      · simp at h
      · split at h
        · simp at h
        · split at h
          · simp at h
          · split at h
            · simp at h
            · injection h with h
              subst h
              exact ⟨rfl, rfl⟩

/-- C2 (amended): on both construction paths the element window's lower
bound is `2 × header_block_size`; the upper bound is `image_length` for
`init` but `flash_capacity` for the `init_from_file` parse path (the
two coincide only when the image fills the flash). -/
theorem ffff_c2_element_window_amended :
    (∀ name capacity ebs imglen gen hsize r,
      FfffRomimage.init name capacity ebs imglen gen hsize = .ok r →
        r.element_location_min = 2 * get_header_block_size ebs hsize ∧
        r.element_location_max = imglen) ∧
    (∀ buf r, FfffRomimage.initFromBuffer buf = .ok r →
        r.element_location_min =
          2 * get_header_block_size r.erase_block_size r.header_size ∧
        r.element_location_max = r.flash_capacity) := by
  constructor
  · intro name capacity ebs imglen gen hsize r h
    unfold FfffRomimage.init at h
    split at h
    · simp at h
    · split at h
      · simp at h
      · split at h
        · simp at h
        · injection h with h
          subst h
          exact ⟨rfl, rfl⟩
  · intro buf r h
    unfold FfffRomimage.initFromBuffer at h
    cases hc : FfffRomimage.new.get_romimage_characteristics buf with
    | error msg => rw [hc] at h; simp at h
    | ok r1 =>
      rw [hc] at h
      obtain ⟨hmin, hmax⟩ := characteristics_window _ _ _ hc
      dsimp only at h
      cases hs : FfffRomimage.scanForHeader1 buf r1.header_size
          (get_header_block_size r1.erase_block_size r1.header_size) with
      | error msg => rw [hs] at h; simp at h
      | ok found =>
        rw [hs] at h
        dsimp only at h
        injection h with h
        subst h
        exact ⟨hmin, hmax⟩

set_option maxRecDepth 100000 in
theorem ffff_c2_witness :
    (c2InitR.element_location_min = 2 * get_header_block_size 1024 512 ∧
      c2InitR.element_location_max = 8192) ∧
    (c2R.element_location_min =
        2 * get_header_block_size c2R.erase_block_size c2R.header_size ∧
      c2R.element_location_max = c2R.flash_capacity) :=
  ⟨ffff_c2_element_window_amended.1 [] 4096 1024 8192 1 512 c2InitR rfl,
    ffff_c2_element_window_amended.2 c2Buf c2R rfl⟩

set_option maxRecDepth 100000 in
/-- C2 counterexample: `c2Buf` parses successfully with
`flash_image_length = 1024` but `flash_capacity = 2048`, and the upper
window bound follows the capacity, not the image length. -/
theorem ffff_c2_counterexample :
    FfffRomimage.initFromBuffer c2Buf = .ok c2R ∧
    c2R.flash_image_length = 1024 ∧
    c2R.element_location_max = 2048 ∧
    c2R.element_location_max ≠ c2R.flash_image_length := by
  refine ⟨rfl, ?_, ?_, ?_⟩ <;> decide

/-! ## Claim C9 -/

/-- The doubling loop never goes below its start. -/
theorem ghbsAux_le (fuel : Nat) :
    ∀ size hsize, size ≤ ghbsAux fuel size hsize := by
  induction fuel with
  | zero => intro s h; exact Nat.le_refl s
  | succ n ih =>
    intro s h
    unfold ghbsAux
    split
    · exact Nat.le_trans (by omega) (ih (s * 2) h)
    · exact Nat.le_refl s

theorem get_header_block_size_pos (ebs hsize : Nat) (h : 0 < ebs) :
    0 < get_header_block_size ebs hsize :=
  Nat.lt_of_lt_of_le h (ghbsAux_le 64 ebs hsize)

theorem le_mul_two_pow (off k : Nat) : off ≤ off * 2 ^ k := by
  have h2k : 1 ≤ 2 ^ k := pow_pos (by norm_num : (0 : ℕ) < 2) k
  calc off = off * 1 := (Nat.mul_one off).symm
    _ ≤ off * 2 ^ k := Nat.mul_le_mul_left off h2k

/-- The scan agrees with first-match over the candidate chain whenever
it completes without a read error. -/
theorem scanAux_eq_find (buf : List Nat) (hs : Nat) :
    ∀ fuel offset r, FfffRomimage.scanAux buf hs fuel offset = .ok r →
      r = (FfffRomimage.candAux fuel offset).find?
        (FfffRomimage.acceptsCandidate buf hs) := by
  intro fuel
  induction fuel with
  | zero =>
    intro off r h
    unfold FfffRomimage.scanAux at h
    injection h with h
    subst h
    rfl
  | succ n ih =>
    intro off r h
    unfold FfffRomimage.scanAux at h
    unfold FfffRomimage.candAux
    by_cases hlt : off < FFFF_MAX_HEADER_BLOCK_OFFSET
    · rw [if_pos hlt] at h
      rw [if_pos hlt]
      cases hn : read16 buf off with
      | none => rw [hn] at h; simp at h
      | some nose =>
        cases ht : read16 buf (off + (hs - FFFF_SENTINEL_LENGTH)) with
        | none => rw [hn, ht] at h; simp at h
        | some tail =>
          rw [hn, ht] at h
          dsimp only at h
          by_cases hacc : nose = FFFF_SENTINEL ∧ tail = FFFF_SENTINEL
          · rw [if_pos hacc] at h
            injection h with h
            subst h
            have hacc2 : FfffRomimage.acceptsCandidate buf hs off = true := by
              unfold FfffRomimage.acceptsCandidate
              rw [hn, ht, hacc.1, hacc.2]
              simp
            rw [List.find?_cons_of_pos _ hacc2]
          · rw [if_neg hacc] at h
            have hacc2 : FfffRomimage.acceptsCandidate buf hs off = false := by
              unfold FfffRomimage.acceptsCandidate
              rw [hn, ht]
              by_cases h1 : nose = FFFF_SENTINEL
              · by_cases h2 : tail = FFFF_SENTINEL
                · exact absurd ⟨h1, h2⟩ hacc
                · simp [h2]
              · simp [h1]
            rw [List.find?_cons_of_neg _ (by simp [hacc2])]
            exact ih _ _ h
    · rw [if_neg hlt] at h
      rw [if_neg hlt]
      injection h with h
      subst h
      rfl

/-- The candidate chain holds exactly the doublings of its (positive)
start that sit below the ceiling, provided the fuel covers the
ceiling. -/
theorem mem_candAux :
    ∀ fuel offset x, 0 < offset →
      FFFF_MAX_HEADER_BLOCK_OFFSET ≤ offset * 2 ^ fuel →
      (x ∈ FfffRomimage.candAux fuel offset ↔
        ∃ k, x = offset * 2 ^ k ∧ x < FFFF_MAX_HEADER_BLOCK_OFFSET) := by
  intro fuel
  induction fuel with
  | zero =>
    intro off x hpos hfuel
    rw [pow_zero, Nat.mul_one] at hfuel
    unfold FfffRomimage.candAux
    constructor
    · intro hx
      exact absurd hx (List.not_mem_nil x)
    · rintro ⟨k, rfl, hk⟩
      have := le_mul_two_pow off k
      omega
  | succ n ih =>
    intro off x hpos hfuel
    unfold FfffRomimage.candAux
    by_cases hlt : off < FFFF_MAX_HEADER_BLOCK_OFFSET
    · rw [if_pos hlt]
      have hfuel2 : FFFF_MAX_HEADER_BLOCK_OFFSET ≤ off * 2 * 2 ^ n := by
        have heq : off * 2 * 2 ^ n = off * 2 ^ (n + 1) := by ring
        rw [heq]
        exact hfuel
      rw [List.mem_cons, ih (off * 2) x (by omega) hfuel2]
      constructor
      · rintro (rfl | ⟨k, rfl, hk⟩)
        · exact ⟨0, by simp, hlt⟩
        · exact ⟨k + 1, by ring, hk⟩
      · rintro ⟨k, rfl, hk⟩
        cases k with
        | zero => left; simp
        | succ k2 =>
          right
          exact ⟨k2, by ring, hk⟩
    · rw [if_neg hlt]
      constructor
      · intro hx
        exact absurd hx (List.not_mem_nil x)
      · rintro ⟨k, rfl, hk⟩
        have := le_mul_two_pow off k
        omega

/-- C9 (amended): whenever the second-header scan completes without a
read error, its result is the first candidate of the doubling chain —
the offsets `header_block_size * 2^k` below the 512 KiB ceiling — whose
16 nose bytes and 16 tail bytes (at `offset + header_size - 16`) both
equal the sentinel; `.ok none` (header 1 absent, no error) is exactly
the case where no candidate is accepted.  A candidate read past the end
of the buffer instead raises `struct.error` (see the counterexample),
which is the one divergence from the claim. -/
theorem ffff_c9_scan_amended (buf : List Nat) (ebs hs : Nat)
    (hebs : 0 < ebs) (r : Option Nat)
    (hok : FfffRomimage.scanForHeader1 buf hs
      (get_header_block_size ebs hs) = .ok r) :
    r = (FfffRomimage.candidateOffsets
        (get_header_block_size ebs hs)).find?
        (FfffRomimage.acceptsCandidate buf hs) ∧
    (∀ off,
      off ∈ FfffRomimage.candidateOffsets (get_header_block_size ebs hs) ↔
      ∃ k, off = get_header_block_size ebs hs * 2 ^ k ∧
        off < FFFF_MAX_HEADER_BLOCK_OFFSET) ∧
    (∀ off, FfffRomimage.acceptsCandidate buf hs off = true ↔
      (read16 buf off = some FFFF_SENTINEL ∧
        read16 buf (off + (hs - FFFF_SENTINEL_LENGTH)) =
          some FFFF_SENTINEL)) := by
  have hpos : 0 < get_header_block_size ebs hs :=
    get_header_block_size_pos ebs hs hebs
  have hfuel : FFFF_MAX_HEADER_BLOCK_OFFSET ≤
      get_header_block_size ebs hs * 2 ^ 64 := by
    have h1 : FFFF_MAX_HEADER_BLOCK_OFFSET ≤ 1 * 2 ^ 64 := by
      rw [Nat.one_mul]
      norm_num [FFFF_MAX_HEADER_BLOCK_OFFSET]
    exact Nat.le_trans h1 (Nat.mul_le_mul_right (2 ^ 64) hpos)
  refine ⟨scanAux_eq_find buf hs 64 _ r hok,
    fun off => mem_candAux 64 _ off hpos hfuel,
    fun off => ?_⟩
  unfold FfffRomimage.acceptsCandidate
  rw [Bool.and_eq_true]
  simp

set_option maxRecDepth 100000 in
theorem ffff_c9_witness :
    some 512 =
      (FfffRomimage.candidateOffsets (get_header_block_size 512 512)).find?
        (FfffRomimage.acceptsCandidate c2Buf 512) :=
  (ffff_c9_scan_amended c2Buf 512 512 (by decide) (some 512) (by rfl)).1

set_option maxRecDepth 100000 in
/-- C9 counterexample: a 1 KiB all-zero image accepts no candidate at
all, yet the scan raises `struct.error` (at the out-of-bounds read of
candidate offset 1024) instead of leaving header 1 absent without an
error. -/
theorem ffff_c9_counterexample :
    FfffRomimage.scanForHeader1 c9ShortBuf 512
      (get_header_block_size 512 512) = .error "struct.error" ∧
    (FfffRomimage.candidateOffsets (get_header_block_size 512 512)).any
      (FfffRomimage.acceptsCandidate c9ShortBuf 512) = false := by
  constructor
  · rfl
  · decide

end BootromTools
